import Mathlib

/-!
Shallow embedding of the `jarvis-homewizard-exporter` core
(`src/homewizard_client.rs`, `src/model.rs`).

Modelling conventions:
* Rust `f64` telemetry values are modelled as exact rationals (`ℚ`); the
  arithmetic performed by the program (`* 1000.0 * 3600.0`, `* 60.0 / 1000.0`)
  is treated with exact arithmetic.
* `HashMap`/`HashSet` are modelled as association lists / lists carrying an
  iteration order; `HashMap::insert` is replace-or-append.
* Network effects are modelled by an environment: each device is mapped to the
  optional decoded responses of its `/api` and `/api/<v>/data` endpoints
  (`none` = unreachable host or malformed JSON).
* A Rust panic (`Option::unwrap` on `None`, `Result::unwrap` on `Err`) is the
  explicit outcome `RustOutcome.panicked`, tagged with which unwrap fired;
  a recoverable `Err(Box<dyn Error>)` is `RustOutcome.errored`.
* Wall-clock time is modelled in whole seconds (`ℕ`): a discovery event trace
  is a list of (arrival time, event) pairs consumed in order, and the blocking
  `receiver.recv()` returns the next trace element at its arrival time, or
  closes the stream at time `tClose` when the trace is exhausted.
-/

namespace Homewizard

/-- Which `unwrap` call in `get_samples` fired a panic. -/
inductive PanicCause where
  /-- `device.ip_addresses.iter().next().unwrap()` on an empty address set. -/
  | addrUnwrap
  /-- `HomewizardDeviceType::from_str(..).unwrap()` on an unknown product type. -/
  | typeUnwrap
deriving DecidableEq, Repr

/-- Outcome of a Rust computation: a panic, a recoverable `Err`, or `Ok`. -/
inductive RustOutcome (α : Type) where
  | panicked (cause : PanicCause)
  | errored
  | ok (value : α)
deriving DecidableEq, Repr

/-- `model.rs` `Config`: location plus serial → friendly-name map
(`HashMap<String, String>` modelled as an association list with unique keys). -/
structure Config where
  location : String
  names : List (String × String)
deriving DecidableEq, Repr

/-- `HashMap::get` on the association-list model (first match). -/
def lookupName : List (String × String) → String → Option String
  | [], _ => none
  | (k, v) :: rest, s => if k = s then some v else lookupName rest s

/-- `jarvis_lib::model::EntityType` (the variants used by this exporter). -/
inductive EntityType where
  | device
  | tariff
deriving DecidableEq, Repr

/-- `jarvis_lib::model::SampleType` (the variants used by this exporter). -/
inductive SampleType where
  | electricityConsumption
  | electricityProduction
  | waterConsumption
deriving DecidableEq, Repr

/-- `jarvis_lib::model::MetricType` (the variants used by this exporter). -/
inductive MetricType where
  | counter
  | gauge
deriving DecidableEq, Repr

/-- `jarvis_lib::model::Sample`; `value: f64` modelled as `ℚ`. -/
structure Sample where
  entity_type : EntityType
  entity_name : String
  sample_type : SampleType
  sample_name : String
  metric_type : MetricType
  value : ℚ
deriving DecidableEq, Repr

/-- `jarvis_lib::model::Measurement`; the `measured_at_time` timestamp is an
abstract `ℕ`. -/
structure Measurement where
  id : String
  source : String
  location : String
  samples : List Sample
  measured_at_time : ℕ
deriving DecidableEq, Repr

/-- `HomewizardDevice`: fullname plus the `HashSet<Ipv4Addr>` modelled as a
list of address strings in iteration order. -/
structure HomewizardDevice where
  fullname : String
  ip_addresses : List String
deriving DecidableEq, Repr

/-- `HomewizardDeviceType`: the five known device types. -/
inductive HomewizardDeviceType where
  | p1Meter
  | singlePhaseKwhMeter
  | triplePhaseKwhMeter
  | energySocket
  | waterMeter
deriving DecidableEq, Repr

/-- `HomewizardDeviceType::from_str`; `Err(())` is `none`. -/
def HomewizardDeviceType.from_str (input : String) : Option HomewizardDeviceType :=
  if input = "HWE-P1" then some .p1Meter
  else if input = "HWE-SKT" then some .energySocket
  else if input = "HWE-WTR" then some .waterMeter
  else if input = "SDM230-wifi" then some .singlePhaseKwhMeter
  else if input = "SDM630-wifi" then some .triplePhaseKwhMeter
  else none

/-- `DeviceInfoResponse`: decoded body of `GET http://<addr>/api`. -/
structure DeviceInfoResponse where
  product_type : String
  product_name : String
  serial : String
  firmware_version : String
  api_version : String
deriving DecidableEq, Repr

/-- `P1MeterDataResponse` (fields actually read by the normalizer are the kWh
totals and `active_power_w`; the rest are carried for fidelity). -/
structure P1MeterDataResponse where
  smr_version : ℕ
  meter_model : String
  wifi_ssid : String
  wifi_strength : ℕ
  total_power_import_t1_kwh : ℚ
  total_power_export_t1_kwh : ℚ
  total_power_import_t2_kwh : ℚ
  total_power_export_t2_kwh : ℚ
  active_power_w : ℚ
  active_power_l1_w : ℚ
  active_power_l2_w : ℚ
  active_power_l3_w : ℚ
  total_gas_m3 : ℚ
  gas_timestamp : ℕ
deriving DecidableEq, Repr

/-- `EnergySocketDataResponse`. -/
structure EnergySocketDataResponse where
  wifi_ssid : String
  wifi_strength : ℕ
  total_power_import_t1_kwh : ℚ
  total_power_export_t1_kwh : ℚ
  active_power_w : ℚ
  active_power_l1_w : ℚ
deriving DecidableEq, Repr

/-- `SinglePhaseKwhMeterDataResponse`. -/
structure SinglePhaseKwhMeterDataResponse where
  wifi_ssid : String
  wifi_strength : ℕ
  total_power_import_t1_kwh : ℚ
  total_power_export_t1_kwh : ℚ
  active_power_w : ℚ
  active_power_l1_w : ℚ
deriving DecidableEq, Repr

/-- `TriplePhaseKwhMeterDataResponse`. -/
structure TriplePhaseKwhMeterDataResponse where
  wifi_ssid : String
  wifi_strength : ℕ
  total_power_import_t1_kwh : ℚ
  total_power_export_t1_kwh : ℚ
  active_power_w : ℚ
  active_power_l1_w : ℚ
  active_power_l2_w : ℚ
  active_power_l3_w : ℚ
deriving DecidableEq, Repr

/-- `WaterMeterDataResponse`. -/
structure WaterMeterDataResponse where
  wifi_ssid : String
  wifi_strength : ℕ
  total_liter_m3 : ℚ
  active_liter_lpm : ℚ
deriving DecidableEq, Repr

/-- The environment's answers for one device: the decoded `/api` info response
and, per payload shape, the decoded `/api/<v>/data` response. `none` models an
unreachable host or a JSON decode failure of that shape. -/
structure DeviceResponses where
  info : Option DeviceInfoResponse
  energySocketData : Option EnergySocketDataResponse
  singlePhaseData : Option SinglePhaseKwhMeterDataResponse
  triplePhaseData : Option TriplePhaseKwhMeterDataResponse
  waterMeterData : Option WaterMeterDataResponse
  p1MeterData : Option P1MeterDataResponse
deriving DecidableEq, Repr

/-- Friendly-name resolution inside `get_samples`: look up the serial in
`config.names`, falling back to the reported product name. -/
def friendlyName (config : Config) (info : DeviceInfoResponse) : String :=
  match lookupName config.names info.serial with
  | some name => name
  | none => info.product_name

/-- `HomewizardClient::get_samples`, with the two HTTP fetches replaced by the
`DeviceResponses` environment. Mirrors the source's control flow: first-address
unwrap, `/api` fetch (`?` on failure), friendly-name resolution,
`from_str(..).unwrap()` on the product type, then the per-type first-address
unwrap, data fetch (`?` on failure) and sample construction. -/
def get_samples (config : Config) (device : HomewizardDevice)
    (resp : DeviceResponses) : RustOutcome (List Sample) :=
  match device.ip_addresses.head? with
  | none => .panicked .addrUnwrap
  | some _ =>
    match resp.info with
    | none => .errored
    | some info =>
      let friendly_name : String := friendlyName config info
      match HomewizardDeviceType.from_str info.product_type with
      | none => .panicked .typeUnwrap
      | some .energySocket =>
        match device.ip_addresses.head? with
        | none => .panicked .addrUnwrap
        | some _ =>
          match resp.energySocketData with
          | none => .errored
          | some data =>
            .ok [
              { entity_type := .device
                entity_name := info.product_type
                sample_type := .electricityConsumption
                sample_name := friendly_name
                metric_type := .counter
                value := data.total_power_import_t1_kwh * 1000 * 3600 },
              { entity_type := .device
                entity_name := info.product_type
                sample_type := .electricityProduction
                sample_name := friendly_name
                metric_type := .counter
                value := data.total_power_export_t1_kwh * 1000 * 3600 },
              { entity_type := .device
                entity_name := info.product_type
                sample_type := .electricityConsumption
                sample_name := friendly_name
                metric_type := .gauge
                value := data.active_power_w } ]
      | some .singlePhaseKwhMeter =>
        match device.ip_addresses.head? with
        | none => .panicked .addrUnwrap
        | some _ =>
          match resp.singlePhaseData with
          | none => .errored
          | some data =>
            .ok [
              { entity_type := .device
                entity_name := info.product_type
                sample_type := .electricityConsumption
                sample_name := friendly_name
                metric_type := .counter
                value := data.total_power_import_t1_kwh * 1000 * 3600 },
              { entity_type := .device
                entity_name := info.product_type
                sample_type := .electricityProduction
                sample_name := friendly_name
                metric_type := .counter
                value := data.total_power_export_t1_kwh * 1000 * 3600 },
              { entity_type := .device
                entity_name := info.product_type
                sample_type := .electricityConsumption
                sample_name := friendly_name
                metric_type := .gauge
                value := data.active_power_w } ]
      | some .triplePhaseKwhMeter =>
        match device.ip_addresses.head? with
        | none => .panicked .addrUnwrap
        | some _ =>
          match resp.triplePhaseData with
          | none => .errored
          | some data =>
            .ok [
              { entity_type := .device
                entity_name := info.product_type
                sample_type := .electricityConsumption
                sample_name := friendly_name
                metric_type := .counter
                value := data.total_power_import_t1_kwh * 1000 * 3600 },
              { entity_type := .device
                entity_name := info.product_type
                sample_type := .electricityProduction
                sample_name := friendly_name
                metric_type := .counter
                value := data.total_power_export_t1_kwh * 1000 * 3600 },
              { entity_type := .device
                entity_name := info.product_type
                sample_type := .electricityConsumption
                sample_name := friendly_name
                metric_type := .gauge
                value := data.active_power_w } ]
      | some .waterMeter =>
        match device.ip_addresses.head? with
        | none => .panicked .addrUnwrap
        | some _ =>
          match resp.waterMeterData with
          | none => .errored
          | some data =>
            .ok [
              { entity_type := .device
                entity_name := info.product_type
                sample_type := .waterConsumption
                sample_name := friendly_name
                metric_type := .counter
                value := data.total_liter_m3 },
              { entity_type := .device
                entity_name := info.product_type
                sample_type := .waterConsumption
                sample_name := friendly_name
                metric_type := .gauge
                value := data.active_liter_lpm * 60 / 1000 } ]
      | some .p1Meter =>
        match device.ip_addresses.head? with
        | none => .panicked .addrUnwrap
        | some _ =>
          match resp.p1MeterData with
          | none => .errored
          | some data =>
            .ok [
              { entity_type := .tariff
                entity_name := info.product_type
                sample_type := .electricityConsumption
                sample_name := "t1 import"
                metric_type := .counter
                value := data.total_power_import_t1_kwh * 1000 * 3600 },
              { entity_type := .tariff
                entity_name := info.product_type
                sample_type := .electricityProduction
                sample_name := "t1 export"
                metric_type := .counter
                value := data.total_power_export_t1_kwh * 1000 * 3600 },
              { entity_type := .tariff
                entity_name := info.product_type
                sample_type := .electricityConsumption
                sample_name := "t2 import"
                metric_type := .counter
                value := data.total_power_import_t2_kwh * 1000 * 3600 },
              { entity_type := .tariff
                entity_name := info.product_type
                sample_type := .electricityProduction
                sample_name := "t2 export"
                metric_type := .counter
                value := data.total_power_export_t2_kwh * 1000 * 3600 },
              { entity_type := .device
                entity_name := info.product_type
                sample_type := .electricityConsumption
                sample_name := friendly_name
                metric_type := .gauge
                value := data.active_power_w } ]

/-- The per-device loop body of `get_measurement`: `Ok(samples)` is appended,
`Err(_)` is skipped (`continue`), a panic aborts the whole run. -/
def collectSamples (config : Config) (env : HomewizardDevice → DeviceResponses) :
    List HomewizardDevice → RustOutcome (List Sample)
  | [] => .ok []
  | device :: rest =>
    match get_samples config device (env device) with
    | .panicked cause => .panicked cause
    | .errored => collectSamples config env rest
    | .ok samples =>
      match collectSamples config env rest with
      | .panicked cause => .panicked cause
      | .errored => .errored
      | .ok acc => .ok (samples ++ acc)

/-- `HomewizardClient::get_measurement` (the `MeasurementClient` impl), with
the impure inputs made explicit: `freshId` models `Uuid::new_v4()`, `now`
models `Utc::now()`, `devices` is the result of `discover_devices`, and `env`
answers each device's HTTP fetches. `_last_measurement` is the unused
`previousMeasurement` parameter. -/
def get_measurement (config : Config) (_last_measurement : Option Measurement)
    (freshId : String) (now : ℕ) (devices : List HomewizardDevice)
    (env : HomewizardDevice → DeviceResponses) : RustOutcome Measurement :=
  match collectSamples config env devices with
  | .panicked cause => .panicked cause
  | .errored => .errored
  | .ok samples =>
    .ok { id := freshId
          source := "jarvis-homewizard-exporter"
          location := config.location
          samples := samples
          measured_at_time := now }

/-- An mDNS browse event as consumed by `discover_devices`: a
`ServiceEvent::ServiceResolved` carrying fullname and address set, or any
other event kind (logged and otherwise ignored). -/
inductive ServiceEvent where
  | serviceResolved (fullname : String) (addresses : List String)
  | otherEvent
deriving DecidableEq, Repr

/-- The device map of `discover_devices`: `HashMap<String, HomewizardDevice>`
modelled as an association list with unique keys in insertion order. -/
abbrev DevMap := List (String × HomewizardDevice)

/-- `HashMap::insert` on the association-list model: replace the value at an
existing key, else append. -/
def insertDev : DevMap → String → HomewizardDevice → DevMap
  | [], key, value => [(key, value)]
  | p :: rest, key, value =>
    if p.1 = key then (key, value) :: rest else p :: insertDev rest key value

/-- `HashMap::get` on the device map. -/
def lookupDev : DevMap → String → Option HomewizardDevice
  | [], _ => none
  | (k, v) :: rest, key => if k = key then some v else lookupDev rest key

/-- One iteration of the event loop in `discover_devices`: a resolved service
is inserted under its fullname, every other event leaves the map unchanged. -/
def applyEvent (m : DevMap) : ServiceEvent → DevMap
  | .serviceResolved fullname addresses =>
    insertDev m fullname { fullname := fullname, ip_addresses := addresses }
  | .otherEvent => m

/-- The `while let Ok(event) = receiver.recv()` loop of `discover_devices`
over a timed event trace: each event is processed at its arrival time, then
the loop breaks if `start.elapsed() > timeout`; when the trace is exhausted
the channel closes at `tClose`. Returns the device map and the wall-clock
time at which the loop exits. -/
def discoverLoop (timeout : ℕ) (tClose : ℕ) (m : DevMap) :
    List (ℕ × ServiceEvent) → DevMap × ℕ
  | [] => (m, tClose)
  | (t, e) :: rest =>
    let m2 := applyEvent m e
    if timeout < t then (m2, t) else discoverLoop timeout tClose m2 rest

/-- `HomewizardClient::discover_devices` over a timed event trace: runs the
event loop from an empty map and returns `devices.into_values().collect()`
together with the time at which the call returns. -/
def discover_devices (timeout_seconds : ℕ) (tClose : ℕ)
    (trace : List (ℕ × ServiceEvent)) : List HomewizardDevice × ℕ :=
  let result := discoverLoop timeout_seconds tClose [] trace
  (result.1.map (fun p => p.2), result.2)

/-- The prefix of the trace actually processed by the loop: everything up to
and including the first event whose arrival time exceeds the timeout. -/
def consumedEvents (timeout : ℕ) : List (ℕ × ServiceEvent) → List (ℕ × ServiceEvent)
  | [] => []
  | (t, e) :: rest =>
    if timeout < t then [(t, e)] else (t, e) :: consumedEvents timeout rest

/-- The address set of the last `ServiceResolved` event for a given fullname
in an event list, if any. -/
def lastResolution (fullname : String) : List ServiceEvent → Option (List String)
  | [] => none
  | e :: rest =>
    match lastResolution fullname rest with
    | some addresses => some addresses
    | none =>
      match e with
      | .serviceResolved f addresses => if f = fullname then some addresses else none
      | .otherEvent => none

/-! Concrete fixtures used to evaluate the model at explicit inputs. -/

/-- A config with an empty name map. -/
def cfgPlain : Config := { location := "My Home", names := [] }

/-- A config mapping serial `abc123` to the friendly name `Kitchen`. -/
def cfgKitchen : Config := { location := "My Home", names := [("abc123", "Kitchen")] }

/-- A discovered P1 meter with one address. -/
def devP1 : HomewizardDevice :=
  { fullname := "p1meter-AABBCC._hwenergy._tcp.local.", ip_addresses := ["10.0.0.2"] }

/-- Info response of the P1 meter fixture. -/
def infoP1 : DeviceInfoResponse :=
  { product_type := "HWE-P1", product_name := "P1 Meter", serial := "3c39e7aabbcc",
    firmware_version := "4.19", api_version := "v1" }

/-- P1 data payload of the C4 scenario: t1 import 1.0 kWh, t1 export 0.0,
t2 import 2.0, t2 export 0.0, active power 500 W. -/
def dataP1 : P1MeterDataResponse :=
  { smr_version := 50, meter_model := "ISKRA 2M550T-101", wifi_ssid := "ssid",
    wifi_strength := 100, total_power_import_t1_kwh := 1,
    total_power_export_t1_kwh := 0, total_power_import_t2_kwh := 2,
    total_power_export_t2_kwh := 0, active_power_w := 500,
    active_power_l1_w := 500, active_power_l2_w := 0, active_power_l3_w := 0,
    total_gas_m3 := 0, gas_timestamp := 0 }

/-- Environment answers for the P1 meter fixture. -/
def respP1 : DeviceResponses :=
  { info := some infoP1, energySocketData := none, singlePhaseData := none,
    triplePhaseData := none, waterMeterData := none, p1MeterData := some dataP1 }

/-- A discovered device whose `/api` endpoint reports an unknown product type. -/
def devUnknown : HomewizardDevice :=
  { fullname := "mystery-DDEEFF._hwenergy._tcp.local.", ip_addresses := ["10.0.0.9"] }

/-- Info response with a product-type string matching none of the five known
variants. -/
def infoUnknown : DeviceInfoResponse :=
  { product_type := "HWE-XYZ", product_name := "Mystery Device", serial := "ff0011",
    firmware_version := "1.0", api_version := "v1" }

/-- Environment answers for the unknown-type fixture. -/
def respUnknown : DeviceResponses :=
  { info := some infoUnknown, energySocketData := none, singlePhaseData := none,
    triplePhaseData := none, waterMeterData := none, p1MeterData := none }

/-- Environment used in the concrete two-device runs: the unknown-type device
answers with `respUnknown`, every other device with `respP1`. -/
def envTwoDevices : HomewizardDevice → DeviceResponses := fun d =>
  if d.fullname = devUnknown.fullname then respUnknown else respP1

/-- A discovered water meter with one address. -/
def devWater : HomewizardDevice :=
  { fullname := "watermeter-2D7A68._hwenergy._tcp.local.", ip_addresses := ["10.0.0.3"] }

/-- Info response of the water meter fixture; its serial is the one mapped by
`cfgKitchen`. -/
def infoWater : DeviceInfoResponse :=
  { product_type := "HWE-WTR", product_name := "Watermeter", serial := "abc123",
    firmware_version := "2.03", api_version := "v1" }

/-- Water data payload: 5 m³ total, 1 L/min active. -/
def dataWater : WaterMeterDataResponse :=
  { wifi_ssid := "ssid", wifi_strength := 70, total_liter_m3 := 5,
    active_liter_lpm := 1 }

/-- Environment answers for the water meter fixture. -/
def respWater : DeviceResponses :=
  { info := some infoWater, energySocketData := none, singlePhaseData := none,
    triplePhaseData := none, waterMeterData := some dataWater, p1MeterData := none }

/-- A discovered energy socket with one address. -/
def devSocket : HomewizardDevice :=
  { fullname := "energysocket-112233._hwenergy._tcp.local.", ip_addresses := ["10.0.0.5"] }

/-- Info response of the energy socket fixture. -/
def infoSocket : DeviceInfoResponse :=
  { product_type := "HWE-SKT", product_name := "Energy Socket", serial := "sock01",
    firmware_version := "3.1", api_version := "v1" }

/-- Energy socket data payload: 1 kWh imported, 0 exported, 45 W active. -/
def dataSocket : EnergySocketDataResponse :=
  { wifi_ssid := "ssid", wifi_strength := 80, total_power_import_t1_kwh := 1,
    total_power_export_t1_kwh := 0, active_power_w := 45, active_power_l1_w := 45 }

/-- A discovered device that is unreachable: both fetches fail. -/
def devBad : HomewizardDevice :=
  { fullname := "unreachable-445566._hwenergy._tcp.local.", ip_addresses := ["10.0.0.4"] }

/-- Environment answers for the unreachable fixture: every fetch fails. -/
def respBad : DeviceResponses :=
  { info := none, energySocketData := none, singlePhaseData := none,
    triplePhaseData := none, waterMeterData := none, p1MeterData := none }

/-- Environment of the three-device partial-failure run: the unreachable
device fails every fetch, the P1 meter and the water meter answer normally. -/
def envPartial : HomewizardDevice → DeviceResponses := fun d =>
  if d.fullname = devBad.fullname then respBad
  else if d.fullname = devP1.fullname then respP1
  else respWater

/-- Expected sample list of the P1 meter fixture under the plain config. -/
def p1SamplesOut : List Sample := [
  ⟨.tariff, "HWE-P1", .electricityConsumption, "t1 import", .counter, 3600000⟩,
  ⟨.tariff, "HWE-P1", .electricityProduction, "t1 export", .counter, 0⟩,
  ⟨.tariff, "HWE-P1", .electricityConsumption, "t2 import", .counter, 7200000⟩,
  ⟨.tariff, "HWE-P1", .electricityProduction, "t2 export", .counter, 0⟩,
  ⟨.device, "HWE-P1", .electricityConsumption, "P1 Meter", .gauge, 500⟩ ]

/-- Expected sample list of the water meter fixture under the plain config. -/
def waterSamplesOut : List Sample := [
  ⟨.device, "HWE-WTR", .waterConsumption, "Watermeter", .counter, 5⟩,
  ⟨.device, "HWE-WTR", .waterConsumption, "Watermeter", .gauge, 3 / 50⟩ ]

/-- Per-device expected samples of the partial-failure run. -/
def samplesOfPartial : HomewizardDevice → List Sample := fun d =>
  if d.fullname = devP1.fullname then p1SamplesOut else waterSamplesOut

end Homewizard

namespace Homewizard

/-- C4: for a P1Meter device with data payload
`total_power_import_t1_kwh = 1.0`, `total_power_export_t1_kwh = 0.0`,
`total_power_import_t2_kwh = 2.0`, `total_power_export_t2_kwh = 0.0`,
`active_power_w = 500.0`, the normalizer emits exactly 5 samples in order:
four Tariff/Counter samples labeled "t1 import", "t1 export", "t2 import",
"t2 export" with values 3600000, 0, 7200000, 0, then one Device/Gauge sample
labeled with the friendly name (here the product name, the name map being
empty) and value 500. -/
theorem c4_p1meter_scenario :
    get_samples cfgPlain devP1 respP1 = .ok [
      ⟨.tariff, "HWE-P1", .electricityConsumption, "t1 import", .counter, 3600000⟩,
      ⟨.tariff, "HWE-P1", .electricityProduction, "t1 export", .counter, 0⟩,
      ⟨.tariff, "HWE-P1", .electricityConsumption, "t2 import", .counter, 7200000⟩,
      ⟨.tariff, "HWE-P1", .electricityProduction, "t2 export", .counter, 0⟩,
      ⟨.device, "HWE-P1", .electricityConsumption, "P1 Meter", .gauge, 500⟩ ] := by
  simp only [get_samples, cfgPlain, devP1, respP1, infoP1, dataP1, friendlyName,
    lookupName, HomewizardDeviceType.from_str]
  norm_num

/-- C1 (code bug): a device whose reported product type matches none of the
five known variants makes `get_samples` panic via
`HomewizardDeviceType::from_str(..).unwrap()` rather than return a
recoverable error, and the panic aborts the whole collection cycle instead of
dropping the device and continuing: `get_measurement` over this device plus a
healthy P1 meter panics instead of returning a successful Measurement. -/
theorem c1_unknown_product_type_panics :
    get_samples cfgPlain devUnknown respUnknown = .panicked .typeUnwrap ∧
    get_measurement cfgPlain none "id-1" 0 [devUnknown, devP1] envTwoDevices =
      .panicked .typeUnwrap := by
  constructor
  · decide
  · decide

/-- C9: the Measurement returned by `get_measurement` is independent of the
`previousMeasurement` argument — for every pair of values of the
`_last_measurement` parameter (including `none`), with the same config,
impure inputs, discovered devices and device responses, the two runs return
the same outcome. -/
theorem c9_last_measurement_unused (config : Config)
    (last1 last2 : Option Measurement) (freshId : String) (now : ℕ)
    (devices : List HomewizardDevice) (env : HomewizardDevice → DeviceResponses) :
    get_measurement config last1 freshId now devices env =
      get_measurement config last2 freshId now devices env := by
  rfl

/-- C6: for every WaterMeter payload, the emitted samples are a Counter with
value `total_liter_m3` unscaled and a Gauge with value
`active_liter_lpm * 60 / 1000`; in particular `active_liter_lpm = 1.0` yields
exactly 0.06. -/
theorem c6_water_rate_conversion (config : Config) (device : HomewizardDevice)
    (a : String) (rest : List String) (hd : device.ip_addresses = a :: rest)
    (i : DeviceInfoResponse) (d : WaterMeterDataResponse)
    (ht : i.product_type = "HWE-WTR") :
    get_samples config device ⟨some i, none, none, none, some d, none⟩ = .ok [
      ⟨.device, i.product_type, .waterConsumption, friendlyName config i,
        .counter, d.total_liter_m3⟩,
      ⟨.device, i.product_type, .waterConsumption, friendlyName config i,
        .gauge, d.active_liter_lpm * 60 / 1000⟩ ] ∧
    (d.active_liter_lpm = 1 → d.active_liter_lpm * 60 / 1000 = 0.06) := by
  constructor
  · simp [get_samples, hd, ht, HomewizardDeviceType.from_str]
  · intro h1
    rw [h1]
    norm_num

/-- C6 witness: the water fixture (1 L/min, 5 m³) yields the Counter value 5
and the Gauge value 3/50 = 0.06. -/
theorem c6_water_rate_conversion_witness :
    get_samples cfgPlain devWater ⟨some infoWater, none, none, none,
        some dataWater, none⟩ = .ok [
      ⟨.device, "HWE-WTR", .waterConsumption, "Watermeter", .counter, 5⟩,
      ⟨.device, "HWE-WTR", .waterConsumption, "Watermeter", .gauge, 0.06⟩ ] := by
  have h := c6_water_rate_conversion cfgPlain devWater "10.0.0.3" [] rfl
    infoWater dataWater rfl
  rw [h.1, h.2 rfl]
  norm_num [infoWater, dataWater, friendlyName, lookupName, cfgPlain]

/-- C7: the friendly name used in sample names is the value of `Config.names`
at the device's reported serial when present, and the reported product name
otherwise; the water-meter Gauge and Counter samples carry that name. -/
theorem c7_friendly_name_resolution (config : Config) (i : DeviceInfoResponse)
    (device : HomewizardDevice) (a : String) (rest : List String)
    (hd : device.ip_addresses = a :: rest) (d : WaterMeterDataResponse)
    (ht : i.product_type = "HWE-WTR") :
    (∀ n, lookupName config.names i.serial = some n → friendlyName config i = n) ∧
    (lookupName config.names i.serial = none →
      friendlyName config i = i.product_name) ∧
    get_samples config device ⟨some i, none, none, none, some d, none⟩ = .ok [
      ⟨.device, i.product_type, .waterConsumption, friendlyName config i,
        .counter, d.total_liter_m3⟩,
      ⟨.device, i.product_type, .waterConsumption, friendlyName config i,
        .gauge, d.active_liter_lpm * 60 / 1000⟩ ] := by
  refine ⟨?_, ?_, ?_⟩
  · intro n hn
    simp [friendlyName, hn]
  · intro hn
    simp [friendlyName, hn]
  · simp [get_samples, hd, ht, HomewizardDeviceType.from_str]

/-- C7 witness: with `names = [("abc123", "Kitchen")]` and serial `abc123`
the samples are named "Kitchen"; with the empty name map they fall back to
the product name "Watermeter". -/
theorem c7_friendly_name_resolution_witness :
    friendlyName cfgKitchen infoWater = "Kitchen" ∧
    friendlyName cfgPlain infoWater = "Watermeter" ∧
    get_samples cfgKitchen devWater ⟨some infoWater, none, none, none,
        some dataWater, none⟩ = .ok [
      ⟨.device, "HWE-WTR", .waterConsumption, "Kitchen", .counter, 5⟩,
      ⟨.device, "HWE-WTR", .waterConsumption, "Kitchen", .gauge, 3 / 50⟩ ] := by
  obtain ⟨h1, -, h3⟩ := c7_friendly_name_resolution cfgKitchen infoWater devWater
    "10.0.0.3" [] rfl dataWater rfl
  obtain ⟨-, h2, -⟩ := c7_friendly_name_resolution cfgPlain infoWater devWater
    "10.0.0.3" [] rfl dataWater rfl
  have hk : friendlyName cfgKitchen infoWater = "Kitchen" :=
    h1 "Kitchen" (by simp [cfgKitchen, lookupName, infoWater])
  refine ⟨hk, h2 (by simp [cfgPlain, lookupName]), ?_⟩
  rw [h3, hk]
  norm_num [infoWater, dataWater]

/-- C5: for every device type and payload, each electricity Counter sample's
value is the corresponding kWh field times 1000 times 3600 (kWh → J): the
three kWh-meter types emit import/export Counters scaled that way, the P1
meter emits four tariff Counters scaled that way, the water meter emits no
electricity sample at all, and 1 kWh scales to exactly 3600000 J. -/
theorem c5_kwh_to_joule_scaling (config : Config) (device : HomewizardDevice)
    (a : String) (rest : List String) (hd : device.ip_addresses = a :: rest)
    (i : DeviceInfoResponse) :
    (∀ d : EnergySocketDataResponse, i.product_type = "HWE-SKT" →
      get_samples config device ⟨some i, some d, none, none, none, none⟩ = .ok [
        ⟨.device, i.product_type, .electricityConsumption, friendlyName config i,
          .counter, d.total_power_import_t1_kwh * 1000 * 3600⟩,
        ⟨.device, i.product_type, .electricityProduction, friendlyName config i,
          .counter, d.total_power_export_t1_kwh * 1000 * 3600⟩,
        ⟨.device, i.product_type, .electricityConsumption, friendlyName config i,
          .gauge, d.active_power_w⟩ ]) ∧
    (∀ d : SinglePhaseKwhMeterDataResponse, i.product_type = "SDM230-wifi" →
      get_samples config device ⟨some i, none, some d, none, none, none⟩ = .ok [
        ⟨.device, i.product_type, .electricityConsumption, friendlyName config i,
          .counter, d.total_power_import_t1_kwh * 1000 * 3600⟩,
        ⟨.device, i.product_type, .electricityProduction, friendlyName config i,
          .counter, d.total_power_export_t1_kwh * 1000 * 3600⟩,
        ⟨.device, i.product_type, .electricityConsumption, friendlyName config i,
          .gauge, d.active_power_w⟩ ]) ∧
    (∀ d : TriplePhaseKwhMeterDataResponse, i.product_type = "SDM630-wifi" →
      get_samples config device ⟨some i, none, none, some d, none, none⟩ = .ok [
        ⟨.device, i.product_type, .electricityConsumption, friendlyName config i,
          .counter, d.total_power_import_t1_kwh * 1000 * 3600⟩,
        ⟨.device, i.product_type, .electricityProduction, friendlyName config i,
          .counter, d.total_power_export_t1_kwh * 1000 * 3600⟩,
        ⟨.device, i.product_type, .electricityConsumption, friendlyName config i,
          .gauge, d.active_power_w⟩ ]) ∧
    (∀ d : P1MeterDataResponse, i.product_type = "HWE-P1" →
      get_samples config device ⟨some i, none, none, none, none, some d⟩ = .ok [
        ⟨.tariff, i.product_type, .electricityConsumption, "t1 import",
          .counter, d.total_power_import_t1_kwh * 1000 * 3600⟩,
        ⟨.tariff, i.product_type, .electricityProduction, "t1 export",
          .counter, d.total_power_export_t1_kwh * 1000 * 3600⟩,
        ⟨.tariff, i.product_type, .electricityConsumption, "t2 import",
          .counter, d.total_power_import_t2_kwh * 1000 * 3600⟩,
        ⟨.tariff, i.product_type, .electricityProduction, "t2 export",
          .counter, d.total_power_export_t2_kwh * 1000 * 3600⟩,
        ⟨.device, i.product_type, .electricityConsumption, friendlyName config i,
          .gauge, d.active_power_w⟩ ]) ∧
    (∀ d : WaterMeterDataResponse, i.product_type = "HWE-WTR" →
      get_samples config device ⟨some i, none, none, none, some d, none⟩ = .ok [
        ⟨.device, i.product_type, .waterConsumption, friendlyName config i,
          .counter, d.total_liter_m3⟩,
        ⟨.device, i.product_type, .waterConsumption, friendlyName config i,
          .gauge, d.active_liter_lpm * 60 / 1000⟩ ]) ∧
    (1 : ℚ) * 1000 * 3600 = 3600000 := by
  refine ⟨?_, ?_, ?_, ?_, ?_, by norm_num⟩ <;>
    intro d ht <;>
    simp [get_samples, hd, ht, HomewizardDeviceType.from_str]

/-- C5 witness: the energy-socket fixture with 1 kWh imported yields Counter
values 3600000 and 0 and the unscaled Gauge value 45. -/
theorem c5_kwh_to_joule_scaling_witness :
    get_samples cfgPlain devSocket ⟨some infoSocket, some dataSocket, none,
        none, none, none⟩ = .ok [
      ⟨.device, "HWE-SKT", .electricityConsumption, "Energy Socket",
        .counter, 3600000⟩,
      ⟨.device, "HWE-SKT", .electricityProduction, "Energy Socket",
        .counter, 0⟩,
      ⟨.device, "HWE-SKT", .electricityConsumption, "Energy Socket",
        .gauge, 45⟩ ] := by
  have h := (c5_kwh_to_joule_scaling cfgPlain devSocket "10.0.0.5" [] rfl
    infoSocket).1 dataSocket rfl
  rw [h]
  norm_num [infoSocket, dataSocket, friendlyName, lookupName, cfgPlain]

/-- C10: `get_samples` panics through the first-address
`iter().next().unwrap()` exactly on an empty address set — for every device
with no address it panics there instead of returning an `Err`, and for every
device with at least one address that unwrap never fires, whatever the
responses are. -/
theorem c10_first_address_unwrap (config : Config) (resp : DeviceResponses)
    (device : HomewizardDevice) :
    (device.ip_addresses = [] →
      get_samples config device resp = .panicked .addrUnwrap) ∧
    (device.ip_addresses ≠ [] →
      get_samples config device resp ≠ .panicked .addrUnwrap) := by
  constructor
  · intro h
    simp [get_samples, h]
  · intro h
    obtain ⟨a, rest, hd⟩ := List.exists_cons_of_ne_nil h
    rcases resp with ⟨info, eD, sD, tD, wD, pD⟩
    cases info with
    | none => simp [get_samples, hd]
    | some i =>
      cases h2 : HomewizardDeviceType.from_str i.product_type with
      | none => simp [get_samples, hd, h2]
      | some t =>
        cases t with
        | p1Meter => cases pD <;> simp [get_samples, hd, h2]
        | singlePhaseKwhMeter => cases sD <;> simp [get_samples, hd, h2]
        | triplePhaseKwhMeter => cases tD <;> simp [get_samples, hd, h2]
        | energySocket => cases eD <;> simp [get_samples, hd, h2]
        | waterMeter => cases wD <;> simp [get_samples, hd, h2]

/-- C10 witness: a device with no address panics at the address unwrap, and
the P1 fixture (one address) does not. -/
theorem c10_first_address_unwrap_witness :
    get_samples cfgPlain ⟨"noaddr._hwenergy._tcp.local.", []⟩ respP1 =
      .panicked .addrUnwrap ∧
    get_samples cfgPlain devP1 respP1 ≠ .panicked .addrUnwrap := by
  refine ⟨(c10_first_address_unwrap cfgPlain respP1 _).1 rfl,
    (c10_first_address_unwrap cfgPlain respP1 devP1).2 ?_⟩
  simp [devP1]

/-- Helper: when every device's fetch succeeds, the assembler loop returns the
concatenation of all per-device sample lists in order. -/
theorem collectSamples_all_ok (config : Config)
    (env : HomewizardDevice → DeviceResponses)
    (f : HomewizardDevice → List Sample) (devices : List HomewizardDevice)
    (h : ∀ d ∈ devices, get_samples config d (env d) = .ok (f d)) :
    collectSamples config env devices = .ok ((devices.map f).flatten) := by
  induction devices with
  | nil => rfl
  | cons d rest ih =>
    have hd := h d (List.mem_cons_self d rest)
    have hrest : ∀ d' ∈ rest, get_samples config d' (env d') = .ok (f d') :=
      fun d' h' => h d' (List.mem_cons_of_mem _ h')
    simp [collectSamples, hd, ih hrest]

/-- Helper: a single device whose fetch returns `Err` is skipped, and the
assembler loop returns the concatenation of the other devices' sample lists
in order. -/
theorem collectSamples_skip_failed (config : Config)
    (env : HomewizardDevice → DeviceResponses) (pre post : List HomewizardDevice)
    (bad : HomewizardDevice) (f : HomewizardDevice → List Sample)
    (hgood : ∀ d ∈ pre ++ post, get_samples config d (env d) = .ok (f d))
    (hbad : get_samples config bad (env bad) = .errored) :
    collectSamples config env (pre ++ bad :: post) =
      .ok (((pre ++ post).map f).flatten) := by
  induction pre with
  | nil =>
    simp only [List.nil_append, collectSamples, hbad]
    exact collectSamples_all_ok config env f post (by simpa using hgood)
  | cons d pre' ih =>
    have hd := hgood d (by simp)
    have hrest : ∀ d' ∈ pre' ++ post, get_samples config d' (env d') = .ok (f d') :=
      fun d' h' => hgood d' (List.mem_cons_of_mem _ h')
    simp [collectSamples, hd, ih hrest]

/-- C3: with discovered devices `pre ++ [bad] ++ post` where exactly `bad`'s
per-device fetch fails (returns `Err`, e.g. it is unreachable) and every
other device's fetch succeeds, `get_measurement` returns `Ok` with a
Measurement whose samples are exactly the concatenation of the other devices'
full sample lists in discovery iteration order — no error is surfaced. -/
theorem c3_partial_failure_tolerated (config : Config)
    (lastM : Option Measurement) (freshId : String) (now : ℕ)
    (env : HomewizardDevice → DeviceResponses) (pre post : List HomewizardDevice)
    (bad : HomewizardDevice) (f : HomewizardDevice → List Sample)
    (hgood : ∀ d ∈ pre ++ post, get_samples config d (env d) = .ok (f d))
    (hbad : get_samples config bad (env bad) = .errored) :
    get_measurement config lastM freshId now (pre ++ bad :: post) env =
      .ok { id := freshId, source := "jarvis-homewizard-exporter",
            location := config.location,
            samples := ((pre ++ post).map f).flatten, measured_at_time := now } := by
  simp [get_measurement,
    collectSamples_skip_failed config env pre post bad f hgood hbad]

/-- C3 witness: of three discovered devices (P1 meter, unreachable device,
water meter) the unreachable one is dropped and the Measurement holds exactly
the P1 samples followed by the water samples. -/
theorem c3_partial_failure_tolerated_witness :
    get_measurement cfgPlain none "id-3" 7 [devP1, devBad, devWater] envPartial =
      .ok { id := "id-3", source := "jarvis-homewizard-exporter",
            location := "My Home",
            samples := p1SamplesOut ++ waterSamplesOut,
            measured_at_time := 7 } := by
  have hgood : ∀ d ∈ [devP1] ++ [devWater],
      get_samples cfgPlain d (envPartial d) = .ok (samplesOfPartial d) := by
    intro d hd
    simp only [List.cons_append, List.nil_append, List.mem_cons,
      List.not_mem_nil, or_false] at hd
    rcases hd with rfl | regl
    · simp [envPartial, samplesOfPartial, devP1, devBad, get_samples,
        respP1, infoP1, dataP1, friendlyName, lookupName, cfgPlain,
        HomewizardDeviceType.from_str, p1SamplesOut]
      norm_num
    · subst regl
      simp [envPartial, samplesOfPartial, devWater, devP1, devBad,
        get_samples, respWater, infoWater, dataWater, friendlyName, lookupName,
        cfgPlain, HomewizardDeviceType.from_str, waterSamplesOut]
      norm_num
  have hbad : get_samples cfgPlain devBad (envPartial devBad) = .errored := by
    simp [envPartial, devBad, respBad, get_samples]
  have h := c3_partial_failure_tolerated cfgPlain none "id-3" 7 envPartial
    [devP1] [devWater] devBad samplesOfPartial hgood hbad
  simpa [samplesOfPartial, devP1, devWater, cfgPlain] using h

/-- Helper: the time at which the discovery loop exits, for any starting map,
is the arrival time of the first trace event received after the deadline, or
the stream-close time when no such event arrives. -/
theorem discoverLoop_exit_time (timeout tClose : ℕ)
    (trace : List (ℕ × ServiceEvent)) :
    ∀ m, (discoverLoop timeout tClose m trace).2 =
      match trace.find? (fun te => timeout < te.1) with
      | some te => te.1
      | none => tClose := by
  induction trace with
  | nil => intro m; rfl
  | cons te rest ih =>
    intro m
    obtain ⟨t, e⟩ := te
    simp only [discoverLoop, List.find?]
    by_cases h : timeout < t
    · simp [h]
    · simp [h, ih]

/-- C2 counterexample: with `timeoutSeconds = 1`, a single discovery event
arriving at t = 1000 s makes `discover_devices` return at t = 1000, far past
the deadline even with a generous ε of 100 s — and with no events at all it
returns only when the stream closes (here t = 3600), because the deadline is
checked only after a blocking `recv()`. -/
theorem c2_discovery_bound_counterexample :
    (discover_devices 1 3600 [(1000, .otherEvent)]).2 = 1000 ∧
    ¬ (discover_devices 1 3600 [(1000, .otherEvent)]).2 ≤ 1 + 100 ∧
    (discover_devices 1 3600 []).2 = 3600 := by
  refine ⟨rfl, by decide, rfl⟩

/-- C2 (amended): `discover_devices` returns at the arrival time of the first
event received after the `timeoutSeconds` deadline, or only at stream close
when no further event arrives — not within `timeoutSeconds + ε` of its
start. -/
theorem c2_discovery_return_time (timeout_seconds tClose : ℕ)
    (trace : List (ℕ × ServiceEvent)) :
    (discover_devices timeout_seconds tClose trace).2 =
      match trace.find? (fun te => timeout_seconds < te.1) with
      | some te => te.1
      | none => tClose := by
  simp [discover_devices, discoverLoop_exit_time]

/-- Helper: `HashMap::insert` semantics of `insertDev` at the lookup level. -/
theorem lookupDev_insertDev (k : String) (v : HomewizardDevice) :
    ∀ (m : DevMap) (key : String),
      lookupDev (insertDev m k v) key =
        if k = key then some v else lookupDev m key := by
  intro m
  induction m with
  | nil =>
    intro key
    by_cases h : k = key <;> simp [insertDev, lookupDev, h]
  | cons p m ih =>
    intro key
    obtain ⟨k2, v2⟩ := p
    by_cases h2 : k2 = k
    · subst h2
      by_cases h3 : k2 = key <;> simp [insertDev, lookupDev, h3]
    · by_cases h3 : k2 = key
      · have hne : ¬ k = key := fun h => h2 (h3.trans h.symm)
        have hne2 : ¬ key = k := fun h => hne h.symm
        simp [insertDev, lookupDev, h2, h3, hne, hne2]
      · simp [insertDev, lookupDev, h2, h3, ih]

/-- Helper: a key is in the map after insertion exactly when it was there
before or is the inserted key. -/
theorem mem_keys_insertDev (k : String) (v : HomewizardDevice) :
    ∀ (m : DevMap) (key : String),
      key ∈ (insertDev m k v).map Prod.fst ↔
        key ∈ m.map Prod.fst ∨ key = k := by
  intro m
  induction m with
  | nil => intro key; simp [insertDev]
  | cons p m ih =>
    intro key
    obtain ⟨k2, v2⟩ := p
    by_cases h2 : k2 = k
    · subst h2
      simp [insertDev]
      tauto
    · simp [insertDev, h2, ih]
      tauto

/-- Helper: inserting preserves distinctness of the keys. -/
theorem insertDev_keys_nodup (k : String) (v : HomewizardDevice) :
    ∀ (m : DevMap), (m.map Prod.fst).Nodup →
      ((insertDev m k v).map Prod.fst).Nodup := by
  intro m
  induction m with
  | nil => intro _; simp [insertDev]
  | cons p m ih =>
    intro h
    obtain ⟨k2, v2⟩ := p
    simp only [List.map_cons, List.nodup_cons] at h
    by_cases h2 : k2 = k
    · subst h2
      simpa [insertDev] using h
    · simp only [insertDev, if_neg h2, List.map_cons, List.nodup_cons]
      refine ⟨?_, ih h.2⟩
      rw [mem_keys_insertDev]
      push_neg
      exact ⟨h.1, h2⟩

/-- Helper: inserting a device whose fullname equals its key preserves the
invariant that every entry's device carries its key as fullname. -/
theorem insertDev_keyinv (k : String) (v : HomewizardDevice)
    (hv : v.fullname = k) :
    ∀ (m : DevMap), (∀ p ∈ m, p.2.fullname = p.1) →
      ∀ p ∈ insertDev m k v, p.2.fullname = p.1 := by
  intro m
  induction m with
  | nil =>
    intro _ p hp
    simp only [insertDev, List.mem_singleton] at hp
    rw [hp]
    exact hv
  | cons q m ih =>
    intro h p hp
    obtain ⟨k2, v2⟩ := q
    by_cases h2 : k2 = k
    · subst h2
      simp only [insertDev, if_pos rfl] at hp
      rcases List.mem_cons.mp hp with hp | hp
      · rw [hp]
        exact hv
      · exact h _ (List.mem_cons_of_mem _ hp)
    · simp only [insertDev, if_neg h2] at hp
      rcases List.mem_cons.mp hp with hp | hp
      · rw [hp]
        exact h _ (List.mem_cons_self _ _)
      · exact ih (fun q hq => h q (List.mem_cons_of_mem _ hq)) p hp

/-- Helper: folding the event-loop body over events preserves key
distinctness. -/
theorem foldl_applyEvent_keys_nodup (events : List ServiceEvent) :
    ∀ m : DevMap, (m.map Prod.fst).Nodup →
      ((events.foldl applyEvent m).map Prod.fst).Nodup := by
  induction events with
  | nil => intro m h; simpa using h
  | cons e rest ih =>
    intro m h
    simp only [List.foldl_cons]
    apply ih
    cases e with
    | serviceResolved f addrs => exact insertDev_keys_nodup f _ m h
    | otherEvent => exact h

/-- Helper: folding the event-loop body preserves the fullname-as-key
invariant. -/
theorem foldl_applyEvent_keyinv (events : List ServiceEvent) :
    ∀ m : DevMap, (∀ p ∈ m, p.2.fullname = p.1) →
      ∀ p ∈ events.foldl applyEvent m, p.2.fullname = p.1 := by
  induction events with
  | nil => intro m h; simpa using h
  | cons e rest ih =>
    intro m h
    simp only [List.foldl_cons]
    apply ih
    cases e with
    | serviceResolved f addrs => exact insertDev_keyinv f _ rfl m h
    | otherEvent => exact h

/-- Helper: looking up a fullname in the folded map yields the last
resolution of that fullname among the events, falling back to the starting
map. -/
theorem lookupDev_foldl_applyEvent (events : List ServiceEvent) :
    ∀ (m : DevMap) (fullname : String),
      lookupDev (events.foldl applyEvent m) fullname =
        match lastResolution fullname events with
        | some addresses => some ⟨fullname, addresses⟩
        | none => lookupDev m fullname := by
  induction events with
  | nil => intro m fullname; rfl
  | cons e rest ih =>
    intro m fullname
    simp only [List.foldl_cons, lastResolution]
    rw [ih]
    cases hl : lastResolution fullname rest with
    | some addresses => rfl
    | none =>
      cases e with
      | otherEvent => rfl
      | serviceResolved f addresses =>
        simp only [applyEvent]
        rw [lookupDev_insertDev]
        by_cases hf : f = fullname
        · subst hf
          simp
        · simp [hf]

/-- Helper: with distinct keys, membership of an entry is the same as the
lookup at its key returning its value. -/
theorem mem_iff_lookupDev :
    ∀ (m : DevMap), (m.map Prod.fst).Nodup →
      ∀ (k : String) (v : HomewizardDevice),
        ((k, v) ∈ m ↔ lookupDev m k = some v) := by
  intro m
  induction m with
  | nil => intro _ k v; simp [lookupDev]
  | cons p m ih =>
    intro hnd k v
    obtain ⟨k2, v2⟩ := p
    simp only [List.map_cons, List.nodup_cons] at hnd
    by_cases hk2 : k2 = k
    · subst hk2
      simp only [lookupDev, if_pos rfl]
      constructor
      · intro hm
        rcases List.mem_cons.mp hm with heq | hm
        · injection heq with h1 h2
          rw [h2]
          simp
        · exact absurd (List.mem_map.mpr ⟨(k2, v), hm, rfl⟩) hnd.1
      · intro hl
        injection hl with hl
        rw [← hl]
        exact List.mem_cons_self _ _
    · simp only [lookupDev, if_neg hk2]
      constructor
      · intro hm
        rcases List.mem_cons.mp hm with heq | hm
        · exact absurd (congrArg Prod.fst heq).symm hk2
        · exact (ih hnd.2 k v).mp hm
      · intro hl
        exact List.mem_cons_of_mem _ ((ih hnd.2 k v).mpr hl)

/-- Helper: a device is among the map's values exactly when the lookup at its
fullname returns it, given the two map invariants. -/
theorem mem_values_iff_lookupDev (m : DevMap)
    (hinv : ∀ p ∈ m, p.2.fullname = p.1) (hnd : (m.map Prod.fst).Nodup)
    (v : HomewizardDevice) :
    v ∈ m.map Prod.snd ↔ lookupDev m v.fullname = some v := by
  constructor
  · intro hv
    obtain ⟨p, hp, hpv⟩ := List.mem_map.mp hv
    have hk := hinv p hp
    have hpair : p = (v.fullname, v) := by
      obtain ⟨pk, pv⟩ := p
      rw [Prod.mk.injEq]
      refine ⟨?_, hpv⟩
      rw [← hpv]
      exact hk.symm
    rw [hpair] at hp
    exact (mem_iff_lookupDev m hnd v.fullname v).mp hp
  · intro hl
    exact List.mem_map.mpr
      ⟨(v.fullname, v), (mem_iff_lookupDev m hnd v.fullname v).mpr hl, rfl⟩

/-- Helper: the map built by the discovery loop is the fold of the loop body
over the consumed prefix of the trace. -/
theorem discoverLoop_devices (timeout tClose : ℕ)
    (trace : List (ℕ × ServiceEvent)) :
    ∀ m, (discoverLoop timeout tClose m trace).1 =
      ((consumedEvents timeout trace).map Prod.snd).foldl applyEvent m := by
  induction trace with
  | nil => intro m; rfl
  | cons te rest ih =>
    intro m
    obtain ⟨t, e⟩ := te
    simp only [discoverLoop, consumedEvents]
    by_cases h : timeout < t
    · simp [h]
    · simp [h, ih]

/-- Helper: the values of the map folded from an event list have pairwise
distinct fullnames, and contain a given device exactly when it is the last
resolution of its fullname. -/
theorem discovery_fold_spec (events : List ServiceEvent) (fullname : String)
    (addresses : List String) :
    (((events.foldl applyEvent []).map Prod.snd).map
        HomewizardDevice.fullname).Nodup ∧
    (HomewizardDevice.mk fullname addresses ∈
        (events.foldl applyEvent []).map Prod.snd ↔
      lastResolution fullname events = some addresses) := by
  have hnd : ((events.foldl applyEvent []).map Prod.fst).Nodup :=
    foldl_applyEvent_keys_nodup events [] (by simp)
  have hinv : ∀ p ∈ events.foldl applyEvent [], p.2.fullname = p.1 :=
    foldl_applyEvent_keyinv events [] (by simp)
  constructor
  · have hmaps : ((events.foldl applyEvent []).map Prod.snd).map
        HomewizardDevice.fullname = (events.foldl applyEvent []).map Prod.fst := by
      rw [List.map_map]
      exact List.map_congr_left (fun p hp => hinv p hp)
    rw [hmaps]
    exact hnd
  · rw [mem_values_iff_lookupDev _ hinv hnd]
    rw [lookupDev_foldl_applyEvent]
    cases hl : lastResolution fullname events with
    | none => simp [lookupDev]
    | some a => simp

/-- C8: the device set returned by `discover_devices` contains at most one
device per fullname, and a device with a given fullname and address set is in
it exactly when that address set is the one of the last (latest) resolution
event for that fullname among the consumed events — so of two resolutions of
the same fullname the later one's address set wins. -/
theorem c8_discovery_dedup (timeout tClose : ℕ)
    (trace : List (ℕ × ServiceEvent)) (fullname : String)
    (addresses : List String) :
    ((discover_devices timeout tClose trace).1.map
        HomewizardDevice.fullname).Nodup ∧
    (HomewizardDevice.mk fullname addresses ∈
        (discover_devices timeout tClose trace).1 ↔
      lastResolution fullname
        ((consumedEvents timeout trace).map Prod.snd) = some addresses) := by
  have hres : (discover_devices timeout tClose trace).1 =
      (((consumedEvents timeout trace).map Prod.snd).foldl
        applyEvent []).map Prod.snd := by
    simp [discover_devices, discoverLoop_devices]
  constructor
  · rw [hres]
    exact (discovery_fold_spec _ fullname addresses).1
  · rw [hres]
    exact (discovery_fold_spec _ fullname addresses).2

/-- C8 witness: two resolutions of the same fullname with different address
sets (the second arriving later) collapse to a single returned device
carrying the later address set. -/
theorem c8_discovery_dedup_witness :
    ((discover_devices 10 60 [
        (0, .serviceResolved "a._hwenergy._tcp.local." ["1.1.1.1"]),
        (1, .serviceResolved "a._hwenergy._tcp.local." ["2.2.2.2"])]).1.map
      HomewizardDevice.fullname).Nodup ∧
    HomewizardDevice.mk "a._hwenergy._tcp.local." ["2.2.2.2"] ∈
      (discover_devices 10 60 [
        (0, .serviceResolved "a._hwenergy._tcp.local." ["1.1.1.1"]),
        (1, .serviceResolved "a._hwenergy._tcp.local." ["2.2.2.2"])]).1 := by
  refine ⟨(c8_discovery_dedup 10 60 _ "a._hwenergy._tcp.local." ["2.2.2.2"]).1,
    (c8_discovery_dedup 10 60 _ "a._hwenergy._tcp.local." ["2.2.2.2"]).2.mpr
      (by decide)⟩

end Homewizard
